import Mathlib

/-!
Shallow embedding of the hotel-management backend (reservation,
housekeeping and maintenance controllers) and proofs about it.

Dates are modelled as integer milliseconds since the epoch, the value a
JavaScript Date coerces to under comparison and subtraction.  Status and
role fields are the string values the code compares (the code is
string-typed).  Absent request-body fields are `Option.none`; JavaScript
truthiness of a string field (absent or empty string is falsy) is the
predicate `truthyStr`.  Database lookups (`findById`, `findOne`) are
modelled by passing the looked-up record, or the list the query ranges
over, as an explicit argument.
-/

namespace Backend

/-- Request user context: `req.user.role` and `req.user._id`. -/
structure UserCtx where
  role : String
  userId : Nat
deriving DecidableEq

/-- A room document: the fields the controllers read and write. -/
structure Room where
  roomId : Nat
  status : String
  maxOccupancy : Int
  pricePerNight : Int
deriving DecidableEq

/-- A reservation document. -/
structure Reservation where
  resId : Nat
  guestId : Nat
  roomId : Nat
  checkInDate : Int
  checkOutDate : Int
  numberOfGuests : Option Int
  status : String
  totalAmount : Int
  specialRequests : Option String
  bookingSource : String
deriving DecidableEq

/-- JavaScript truthiness of an optional string field: absent and the
empty string are falsy. -/
def truthyStr : Option String → Bool
  | some s => s != ""
  | none => false

/-- Milliseconds in a day: `1000 * 60 * 60 * 24`. -/
def msPerDay : Int := 1000 * 60 * 60 * 24

/-- Exact ceiling division, the integer meaning of
`Math.ceil(a / b)` for integer `a` and positive integer `b`. -/
def ceilDiv (a b : Int) : Int := -((-a).fdiv b)

/-- Status filter of the conflict query:
`status: { $in: ['confirmed', 'checked-in'] }`. -/
def isBlockingStatus (s : String) : Bool :=
  s == "confirmed" || s == "checked-in"

/-- The `$or` of the conflict query in `createReservation`, applied to one
existing reservation `r` against the candidate interval
`[checkIn, checkOut)`:

  clause 1: `checkInDate: { $lt: checkOut, $gte: checkIn }`
  clause 2: `checkOutDate: { $gt: checkIn, $lte: checkOut }`
  clause 3: `checkInDate: { $lte: checkIn }, checkOutDate: { $gte: checkOut }` -/
def overlapClause (checkIn checkOut : Int) (r : Reservation) : Bool :=
  (decide (r.checkInDate < checkOut) && decide (r.checkInDate ≥ checkIn))
  || (decide (r.checkOutDate > checkIn) && decide (r.checkOutDate ≤ checkOut))
  || (decide (r.checkInDate ≤ checkIn) && decide (r.checkOutDate ≥ checkOut))

/-- Modelled from the spec: the canonical half-open overlap rule, stated
in section 4.1 of the spec as conflict iff
`existing.checkIn < new.checkOut AND existing.checkOut > new.checkIn`.
Used only to compare against the `overlapClause` taken from the code. -/
def canonicalOverlap (checkIn checkOut : Int) (r : Reservation) : Bool :=
  decide (r.checkInDate < checkOut) && decide (r.checkOutDate > checkIn)

/-- Full predicate of the `Reservation.findOne` conflict query: room
match, blocking status, and the `$or` overlap clauses. -/
def conflictPred (roomId : Nat) (checkIn checkOut : Int) (r : Reservation) : Bool :=
  r.roomId == roomId && isBlockingStatus r.status && overlapClause checkIn checkOut r

/-- `Reservation.findOne({...})` over the stored reservations. -/
def findConflicting (roomId : Nat) (checkIn checkOut : Int)
    (rs : List Reservation) : Option Reservation :=
  rs.find? (conflictPred roomId checkIn checkOut)

/-- Body of `POST /api/reservations` (dates already parsed to epoch ms;
the invalid-date-format branches are orthogonal to every claim and are
folded into absence). -/
structure CreateBody where
  roomId : Option Nat
  checkInDate : Option Int
  checkOutDate : Option Int
  numberOfGuests : Option Int
  specialRequests : Option String
  bookingSource : Option String
  guestId : Option Nat
deriving DecidableEq

/-- The occupancy guard `numberOfGuests > room.maxOccupancy`: in
JavaScript `undefined > x` is `false`, so an absent field never fires
the guard. -/
def occupancyExceeded (numberOfGuests : Option Int) (maxOccupancy : Int) : Bool :=
  match numberOfGuests with
  | some n => decide (n > maxOccupancy)
  | none => false

/-- Line 123 of the reservation controller:
`req.user.role === 'guest' ? req.user._id : (req.body.guestId || req.user._id)`. -/
def resolvedGuestId (u : UserCtx) (b : CreateBody) : Nat :=
  if u.role == "guest" then u.userId else b.guestId.getD u.userId

/-- Error message of the conflict rejection. -/
def conflictMsg : String := "Room is not available for the selected dates"

/-- Outcome of `createReservation`: the 400/404 JSON message, or the
created reservation together with the saved room (whose status was set
to reserved). -/
inductive CreateResult where
  | badRequest (msg : String)
  | notFound (msg : String)
  | created (r : Reservation) (room : Room)
deriving DecidableEq

/-- `exports.createReservation`, with the `Room.findById(roomId)` result
and the stored reservation list passed explicitly; `freshId` is the id
the database assigns to the new document.  The status of the new
document is the schema default of the Reservation model (spec section
4.2: persists as Confirmed). -/
def createReservation (u : UserCtx) (b : CreateBody) (roomLookup : Option Room)
    (rs : List Reservation) (freshId : Nat) : CreateResult :=
  match b.roomId with
  | none => .badRequest "Room is required"
  | some roomId =>
    match b.checkInDate with
    | none => .badRequest "Check-in date is required"
    | some checkIn =>
      match b.checkOutDate with
      | none => .badRequest "Check-out date is required"
      | some checkOut =>
        if checkOut ≤ checkIn then
          .badRequest "Check-out date must be after check-in date"
        else
          match roomLookup with
          | none => .notFound "Room not found"
          | some room =>
            if occupancyExceeded b.numberOfGuests room.maxOccupancy then
              .badRequest ("Room can only accommodate " ++
                toString room.maxOccupancy ++ " guests")
            else if (findConflicting roomId checkIn checkOut rs).isSome then
              .badRequest conflictMsg
            else
              let nights := ceilDiv (checkOut - checkIn) msPerDay
              let totalAmount := room.pricePerNight * nights
              .created
                { resId := freshId
                  guestId := resolvedGuestId u b
                  roomId := roomId
                  checkInDate := checkIn
                  checkOutDate := checkOut
                  numberOfGuests := b.numberOfGuests
                  status := "confirmed"
                  totalAmount := totalAmount
                  specialRequests := b.specialRequests
                  bookingSource := if truthyStr b.bookingSource then
                      b.bookingSource.getD "" else "online" }
                { room with status := "reserved" }

/-- Body of `PUT /api/reservations/:id`: only `status` and
`specialRequests` are read by the controller. -/
structure UpdateBody where
  status : Option String
  specialRequests : Option String
deriving DecidableEq

/-- Outcome of `updateReservation`. -/
inductive UpdateResult where
  | notFound
  | forbidden (msg : String)
  | ok (r : Reservation)
deriving DecidableEq

/-- Field application of `updateReservation` (lines 330-331):
`if (req.body.status) reservation.status = req.body.status;` and the
same for `specialRequests`. -/
def applyResBody (b : UpdateBody) (r : Reservation) : Reservation :=
  let r1 := if truthyStr b.status then { r with status := b.status.getD "" } else r
  if truthyStr b.specialRequests then
    { r1 with specialRequests := b.specialRequests } else r1

/-- `exports.updateReservation`, with the `findById` result passed
explicitly.  A guest may act only on a reservation they own and may set
status only to cancelled; no check of the current reservation status is
performed anywhere. -/
def updateReservation (u : UserCtx) (b : UpdateBody)
    (lookup : Option Reservation) : UpdateResult :=
  match lookup with
  | none => .notFound
  | some reservation =>
    if u.role == "guest" then
      if reservation.guestId != u.userId then
        .forbidden "Not authorized"
      else if truthyStr b.status && (b.status != some "cancelled") then
        .forbidden "Guests can only cancel reservations"
      else
        .ok (applyResBody b reservation)
    else
      .ok (applyResBody b reservation)

/-- Outcome of `checkOut`: the error message if any, the reservation
state after the call, and the room state after the call.  The room is
the one `reservation.roomId` resolves to (assumed found, as the code
dereferences it unconditionally). -/
structure CheckOutOutcome where
  error : Option String
  reservation : Option Reservation
  room : Room
deriving DecidableEq

/-- `exports.checkOut`: requires current status checked-in; on success
sets the reservation to checked-out and the room to cleaning; on
failure returns before any write. -/
def checkOut (lookup : Option Reservation) (room : Room) : CheckOutOutcome :=
  match lookup with
  | none => ⟨some "Reservation not found", none, room⟩
  | some reservation =>
    if reservation.status != "checked-in" then
      ⟨some "Only checked-in reservations can be checked out", some reservation, room⟩
    else
      ⟨none, some { reservation with status := "checked-out" },
        { room with status := "cleaning" }⟩

/-- A housekeeping task document. -/
structure HkTask where
  taskId : Nat
  roomId : Nat
  assignedTo : Option Nat
  taskType : String
  status : String
  notes : Option String
  completedDate : Option Int
deriving DecidableEq

/-- Body of `PUT /api/housekeeping/:id`, restricted to the fields the
claims touch (`status`, `notes`); the admin branch copies any provided
key, which on this field set coincides with the staff branch except for
the `completedDate` stamping guard. -/
structure HkBody where
  status : Option String
  notes : Option String
deriving DecidableEq

/-- Task mutation step of `exports.updateTask` (the 403 ownership branch
is returned as `none`). -/
def updateTaskFields (u : UserCtx) (b : HkBody) (task : HkTask)
    (now : Int) : Option HkTask :=
  if u.role == "housekeeping" then
    if task.assignedTo.isSome && (task.assignedTo != some u.userId) then
      none
    else
      let t1 := if truthyStr b.status then { task with status := b.status.getD "" } else task
      let t2 := if truthyStr b.notes then { t1 with notes := b.notes } else t1
      some (if b.status == some "completed" then
        { t2 with completedDate := some now } else t2)
  else
    let t1 := match b.status with
      | some s => { task with status := s }
      | none => task
    let t2 := match b.notes with
      | some s => { t1 with notes := some s }
      | none => t1
    some (if b.status == some "completed" && t2.completedDate == none then
      { t2 with completedDate := some now } else t2)

/-- Room-status step of `exports.updateTask` (lines 120-127): after the
task is saved, if it is a completed cleaning task and the room status is
cleaning, the room becomes available; otherwise the room is left
untouched. -/
def roomAfterTaskSave (t : HkTask) (roomLookup : Option Room) : Option Room :=
  if t.status == "completed" && t.taskType == "cleaning" then
    match roomLookup with
    | some room =>
      if room.status == "cleaning" then
        some { room with status := "available" }
      else
        some room
    | none => none
  else roomLookup

/-- Outcome of `updateTask`: error, final task, final room. -/
structure UpdateTaskOutcome where
  error : Option String
  task : HkTask
  room : Option Room
deriving DecidableEq

/-- `exports.updateTask`, with `findById` results passed explicitly. -/
def updateTask (u : UserCtx) (b : HkBody) (task : HkTask)
    (roomLookup : Option Room) (now : Int) : UpdateTaskOutcome :=
  match updateTaskFields u b task now with
  | none => ⟨some "Not authorized to update this task", task, roomLookup⟩
  | some t => ⟨none, t, roomAfterTaskSave t roomLookup⟩

/-- A maintenance request document (Maintenance model). -/
structure MaintReq where
  reqId : Nat
  roomId : Nat
  reportedBy : Nat
  assignedTo : Option Nat
  issueType : String
  description : String
  status : String
  priority : String
  estimatedCost : Option Int
  actualCost : Option Int
  notes : Option String
  resolvedAt : Option Int
deriving DecidableEq

/-- Body of `POST /api/maintenance`. -/
structure CreateMaintBody where
  issueType : String
  description : String
  priority : Option String
deriving DecidableEq

/-- Outcome of `createRequest`. -/
inductive CreateReqResult where
  | notFound (msg : String)
  | created (req : MaintReq) (room : Room)
deriving DecidableEq

/-- Document built by `Maintenance.create` in `exports.createRequest`
(schema defaults of the Maintenance model: status reported, no
assignee; `priority || 'medium'`). -/
def newMaintReq (u : UserCtx) (b : CreateMaintBody) (room : Room)
    (freshId : Nat) : MaintReq :=
  { reqId := freshId
    roomId := room.roomId
    reportedBy := u.userId
    assignedTo := none
    issueType := b.issueType
    description := b.description
    status := "reported"
    priority := if truthyStr b.priority then b.priority.getD "" else "medium"
    estimatedCost := none
    actualCost := none
    notes := none
    resolvedAt := none }

/-- `exports.createRequest`: builds the document, then sets the room to
maintenance exactly when the raw body priority is the string urgent. -/
def createRequest (u : UserCtx) (b : CreateMaintBody) (roomLookup : Option Room)
    (freshId : Nat) : CreateReqResult :=
  match roomLookup with
  | none => .notFound "Room not found"
  | some room =>
    if b.priority == some "urgent" then
      .created (newMaintReq u b room freshId) { room with status := "maintenance" }
    else
      .created (newMaintReq u b room freshId) room

/-- Body of `PUT /api/maintenance/:id`. -/
structure MaintBody where
  status : Option String
  assignedTo : Option Nat
  priority : Option String
  estimatedCost : Option Int
  actualCost : Option Int
  notes : Option String
deriving DecidableEq

/-- The gate on line 107:
`['assigned', 'in-progress', 'resolved', 'cancelled'].includes(req.body.status)`
(false when `status` is absent). -/
def statusGateFires (b : MaintBody) : Bool :=
  match b.status with
  | some s => s == "assigned" || s == "in-progress" || s == "resolved" || s == "cancelled"
  | none => false

/-- `['admin', 'manager'].includes(req.user.role)`. -/
def isPrivileged (role : String) : Bool :=
  role == "admin" || role == "manager"

/-- Field application of `updateRequest` (lines 114-119); note
`estimatedCost`/`actualCost` use an `!== undefined` test while the
others use truthiness. -/
def applyMaintBody (b : MaintBody) (r : MaintReq) : MaintReq :=
  let r1 := if truthyStr b.status then { r with status := b.status.getD "" } else r
  let r2 := match b.assignedTo with
    | some a => { r1 with assignedTo := some a }
    | none => r1
  let r3 := if truthyStr b.priority then { r2 with priority := b.priority.getD "" } else r2
  let r4 := match b.estimatedCost with
    | some c => { r3 with estimatedCost := some c }
    | none => r3
  let r5 := match b.actualCost with
    | some c => { r4 with actualCost := some c }
    | none => r4
  if truthyStr b.notes then { r5 with notes := b.notes } else r5

/-- Room step of the resolve branch (lines 124-129): if the room was
found and is in maintenance, set it back to available. -/
def resolveRoom : Option Room → Option Room
  | some room =>
    if room.status == "maintenance" then
      some { room with status := "available" }
    else
      some room
  | none => none

/-- Outcome of `updateRequest`: error, final request, final room. -/
structure UpdateReqOutcome where
  error : Option String
  request : MaintReq
  room : Option Room
deriving DecidableEq

/-- `exports.updateRequest`, with the found request and the
`Room.findById(request.roomId)` result (only consulted on resolve)
passed explicitly. -/
def updateRequest (u : UserCtx) (b : MaintBody) (request : MaintReq)
    (roomLookup : Option Room) (now : Int) : UpdateReqOutcome :=
  if statusGateFires b && !(isPrivileged u.role) then
    ⟨some "Only admin/manager can update status", request, roomLookup⟩
  else
    let r := applyMaintBody b request
    if b.status == some "resolved" then
      ⟨none, { r with resolvedAt := some now }, resolveRoom roomLookup⟩
    else ⟨none, r, roomLookup⟩

/-! Concrete records used by the closed witness and counterexample
theorems.  Dates are real epoch milliseconds:
1709856000000 = 2024-03-08T00:00:00Z, 1710028800000 = 2024-03-10T00:00:00Z,
1710201600000 = 2024-03-12T00:00:00Z, 1710288000000 = 2024-03-13T00:00:00Z,
1710374400000 = 2024-03-14T00:00:00Z, 1710460800000 = 2024-03-15T00:00:00Z. -/

/-- Existing reservation for the C1 witness: 2024-03-10 to 2024-03-15. -/
def c1Res : Reservation :=
  { resId := 1, guestId := 4, roomId := 2
    checkInDate := 1710028800000, checkOutDate := 1710460800000
    numberOfGuests := some 2, status := "confirmed", totalAmount := 500
    specialRequests := none, bookingSource := "online" }

/-- Checked-in reservation for the C2 counterexample and witness. -/
def c2Res : Reservation :=
  { resId := 11, guestId := 7, roomId := 3
    checkInDate := 1710028800000, checkOutDate := 1710288000000
    numberOfGuests := some 2, status := "checked-in", totalAmount := 300
    specialRequests := none, bookingSource := "online" }

/-- Caller for the C3 witness. -/
def c3User : UserCtx := ⟨"receptionist", 5⟩

/-- Booking body for the C3 witness: the P6 instance, 2024-03-10 to
2024-03-13 (three nights). -/
def c3Body : CreateBody :=
  { roomId := some 2, checkInDate := some 1710028800000
    checkOutDate := some 1710288000000, numberOfGuests := some 2
    specialRequests := none, bookingSource := none, guestId := some 7 }

/-- Room for the C3 witness, priced 100 per night. -/
def c3Room : Room :=
  { roomId := 2, status := "available", maxOccupancy := 4, pricePerNight := 100 }

/-- Reservation the C3 witness expects to be created: three nights at
100 gives totalAmount 300. -/
def c3Created : Reservation :=
  { resId := 1, guestId := 7, roomId := 2
    checkInDate := 1710028800000, checkOutDate := 1710288000000
    numberOfGuests := some 2, status := "confirmed", totalAmount := 300
    specialRequests := none, bookingSource := "online" }

/-- Room state the C3 witness expects after creation. -/
def c3RoomAfter : Room :=
  { roomId := 2, status := "reserved", maxOccupancy := 4, pricePerNight := 100 }

/-- Completed cleaning task for the C4 witness. -/
def c4Task : HkTask :=
  { taskId := 31, roomId := 5, assignedTo := some 8, taskType := "cleaning"
    status := "completed", notes := none, completedDate := some 1710288000000 }

/-- Occupied room for the C4 witness (the P5 stale no-op instance). -/
def c4Room : Room :=
  { roomId := 5, status := "occupied", maxOccupancy := 2, pricePerNight := 120 }

/-- Existing reservation for the C5 witness: checks out 2024-03-10. -/
def c5Res : Reservation :=
  { resId := 1, guestId := 4, roomId := 2
    checkInDate := 1709856000000, checkOutDate := 1710028800000
    numberOfGuests := some 2, status := "confirmed", totalAmount := 200
    specialRequests := none, bookingSource := "online" }

/-- Room for the C5 witness. -/
def c5Room : Room :=
  { roomId := 2, status := "available", maxOccupancy := 4, pricePerNight := 100 }

/-- Candidate booking body for the C5 witness: 2024-03-10 to 2024-03-13,
back to back with `c5Res`. -/
def c5Body : CreateBody :=
  { roomId := some 2, checkInDate := some 1710028800000
    checkOutDate := some 1710288000000, numberOfGuests := some 2
    specialRequests := none, bookingSource := none, guestId := none }

/-- Still-confirmed reservation for the C6 witness. -/
def c6Res : Reservation :=
  { resId := 41, guestId := 7, roomId := 3
    checkInDate := 1710028800000, checkOutDate := 1710288000000
    numberOfGuests := some 2, status := "confirmed", totalAmount := 300
    specialRequests := none, bookingSource := "online" }

/-- Room for the C6 witness. -/
def c6Room : Room :=
  { roomId := 3, status := "reserved", maxOccupancy := 2, pricePerNight := 100 }

/-- Stored maintenance request for the C7 counterexample and witness. -/
def c7Req : MaintReq :=
  { reqId := 21, roomId := 3, reportedBy := 9, assignedTo := none
    issueType := "plumbing", description := "leaking tap", status := "reported"
    priority := "medium", estimatedCost := none, actualCost := none
    notes := none, resolvedAt := none }

/-- Room for the C7 counterexample and witness. -/
def c7Room : Room :=
  { roomId := 3, status := "available", maxOccupancy := 2, pricePerNight := 80 }

/-- Urgent creation body for the C8 witness. -/
def c8Body : CreateMaintBody :=
  { issueType := "electrical", description := "sparking outlet"
    priority := some "urgent" }

/-- Occupied room for the C8 witness (any prior status qualifies). -/
def c8Room : Room :=
  { roomId := 6, status := "occupied", maxOccupancy := 3, pricePerNight := 150 }

/-- Base booking body for the C9 witness. -/
def c9Body : CreateBody :=
  { roomId := some 2, checkInDate := some 1710028800000
    checkOutDate := some 1710288000000, numberOfGuests := some 2
    specialRequests := none, bookingSource := none, guestId := none }

/-- Room for the C9 witness. -/
def c9Room : Room :=
  { roomId := 2, status := "available", maxOccupancy := 4, pricePerNight := 100 }

/-- Booking body for the C10 witness, with no `numberOfGuests`. -/
def c10Body : CreateBody :=
  { roomId := some 2, checkInDate := some 1710028800000
    checkOutDate := some 1710288000000, numberOfGuests := none
    specialRequests := none, bookingSource := none, guestId := none }

/-- Room for the C10 witness. -/
def c10Room : Room :=
  { roomId := 2, status := "available", maxOccupancy := 4, pricePerNight := 100 }

end Backend

namespace Backend

/-- Helper: inversion on a successful `createReservation`, recovering
the field facts of the created document. -/
theorem createReservation_created_fields (u : UserCtx) (b : CreateBody)
    (roomLookup : Option Room) (rs : List Reservation) (freshId : Nat)
    (res : Reservation) (rm : Room)
    (h : createReservation u b roomLookup rs freshId = .created res rm) :
    ∃ room, roomLookup = some room ∧
      res.guestId = resolvedGuestId u b ∧
      b.checkInDate = some res.checkInDate ∧
      b.checkOutDate = some res.checkOutDate ∧
      res.checkInDate < res.checkOutDate ∧
      res.numberOfGuests = b.numberOfGuests ∧
      res.totalAmount = room.pricePerNight *
        ceilDiv (res.checkOutDate - res.checkInDate) msPerDay ∧
      rm = { room with status := "reserved" } := by
  unfold createReservation at h
  repeat' split at h
  all_goals simp_all
  all_goals obtain ⟨h1, h2⟩ := h
  all_goals subst h1
  all_goals subst h2
  all_goals simp
  all_goals omega

/-- Helper: `ceilDiv a msPerDay` is the exact ceiling of `a / msPerDay`;
it is the least integer whose worth of whole days covers `a`. -/
theorem ceilDiv_msPerDay_spec (a : Int) :
    a ≤ ceilDiv a msPerDay * msPerDay ∧
    (ceilDiv a msPerDay - 1) * msPerDay < a := by
  have hb : (0:Int) ≤ msPerDay := by norm_num [msPerDay]
  have h : ceilDiv a msPerDay = -((-a) / msPerDay) := by
    rw [ceilDiv, Int.fdiv_eq_ediv _ hb]
  have hm : msPerDay = 86400000 := by norm_num [msPerDay]
  rw [h, hm]
  omega

/-- Claim C1: the three-clause `$or` of the reservation-creation
conflict query reports a conflict if and only if the canonical half-open
overlap rule of the spec holds, for every existing reservation
satisfying I2 (`checkInDate < checkOutDate`) and every candidate
interval with `checkIn < checkOut`. -/
theorem overlap_clause_iff_canonical (checkIn checkOut : Int) (r : Reservation)
    (hI2 : r.checkInDate < r.checkOutDate) (hc : checkIn < checkOut) :
    overlapClause checkIn checkOut r = true ↔
      canonicalOverlap checkIn checkOut r = true := by
  simp only [overlapClause, canonicalOverlap, Bool.or_eq_true, Bool.and_eq_true,
    decide_eq_true_eq]
  omega

/-- Witness for C1 at a concrete overlapping pair: existing reservation
2024-03-10 to 2024-03-15 against candidate 2024-03-12 to 2024-03-14. -/
theorem overlap_clause_iff_canonical_witness :
    overlapClause 1710201600000 1710374400000 c1Res = true ↔
      canonicalOverlap 1710201600000 1710374400000 c1Res = true :=
  overlap_clause_iff_canonical 1710201600000 1710374400000 c1Res
    (by decide) (by decide)

/-- Counterexample to claim C2 as stated: `updateReservation` applies a
requested cancelled status to a checked-in reservation.  The owning
guest sends status cancelled for `c2Res`, whose status is checked-in;
the call succeeds and the stored status changes to cancelled instead of
failing and leaving the status unchanged. -/
theorem cancel_checkedIn_succeeds_counterexample :
    c2Res.status = "checked-in" ∧
    updateReservation ⟨"guest", 7⟩ ⟨some "cancelled", none⟩ (some c2Res) =
      .ok { c2Res with status := "cancelled" } :=
  ⟨rfl, by decide⟩

/-- Claim C2 as amended: `updateReservation` checks no current status.
A request that sets status to cancelled succeeds from any current
status (checked-in included) and sets the status to cancelled; the only
guards are that a guest caller must own the reservation and may not
request a status other than cancelled. -/
theorem cancel_applies_regardless_of_current_status (u : UserCtx) (b : UpdateBody)
    (r : Reservation) (hrole : u.role = "guest") (hown : r.guestId = u.userId)
    (hb : b.status = some "cancelled") :
    ∃ r2, updateReservation u b (some r) = .ok r2 ∧ r2.status = "cancelled" := by
  refine ⟨applyResBody b r, ?_, ?_⟩
  · simp [updateReservation, hrole, hown, hb, truthyStr]
  · simp only [applyResBody, hb, truthyStr]
    split <;> simp

/-- Witness for the amended C2 at the checked-in reservation `c2Res`. -/
theorem cancel_applies_witness :
    ∃ r2, updateReservation ⟨"guest", 7⟩ ⟨some "cancelled", none⟩ (some c2Res) = .ok r2 ∧
      r2.status = "cancelled" :=
  cancel_applies_regardless_of_current_status ⟨"guest", 7⟩ ⟨some "cancelled", none⟩
    c2Res rfl rfl rfl

/-- Claim C3: every successfully created reservation has
`totalAmount = pricePerNight * nights` with
`nights = ceilDiv (checkOut - checkIn) msPerDay`, and that value of
nights is the exact ceiling of the stay length in days: `nights` days
cover the stay and `nights - 1` days do not. -/
theorem totalAmount_is_ceil_nights_times_price (u : UserCtx) (b : CreateBody)
    (room : Room) (rs : List Reservation) (freshId : Nat)
    (res : Reservation) (rm : Room)
    (h : createReservation u b (some room) rs freshId = .created res rm) :
    res.totalAmount = room.pricePerNight *
        ceilDiv (res.checkOutDate - res.checkInDate) msPerDay ∧
    res.checkOutDate - res.checkInDate ≤
        ceilDiv (res.checkOutDate - res.checkInDate) msPerDay * msPerDay ∧
    (ceilDiv (res.checkOutDate - res.checkInDate) msPerDay - 1) * msPerDay <
        res.checkOutDate - res.checkInDate := by
  obtain ⟨room2, hr, hg, hci, hco, hlt, hng, hamt, hrm⟩ :=
    createReservation_created_fields u b (some room) rs freshId res rm h
  have : room2 = room := by injection hr.symm
  subst this
  exact ⟨hamt, (ceilDiv_msPerDay_spec _).1, (ceilDiv_msPerDay_spec _).2⟩

/-- Witness for C3: the P6 instance, check-in 2024-03-10, checkout
2024-03-13, price 100 per night, gives three nights and total 300. -/
theorem totalAmount_witness :
    createReservation c3User c3Body (some c3Room) [] 1 = .created c3Created c3RoomAfter ∧
    c3Created.totalAmount = c3Room.pricePerNight *
      ceilDiv (c3Created.checkOutDate - c3Created.checkInDate) msPerDay ∧
    c3Created.totalAmount = 300 := by
  have h : createReservation c3User c3Body (some c3Room) [] 1 =
      .created c3Created c3RoomAfter := by decide
  exact ⟨h,
    (totalAmount_is_ceil_nights_times_price c3User c3Body c3Room [] 1
      c3Created c3RoomAfter h).1, by decide⟩

/-- Claim C4: the room-status step run after saving a housekeeping task
sets the room to available exactly when the task is a completed cleaning
task and the current room status is cleaning; for every other current
status the room is returned unchanged (the stale CleaningDone no-op). -/
theorem cleaning_completion_sets_available_iff_cleaning (t : HkTask) (room : Room)
    (hstat : t.status = "completed") (htype : t.taskType = "cleaning") :
    (room.status = "cleaning" →
      roomAfterTaskSave t (some room) = some { room with status := "available" }) ∧
    (room.status ≠ "cleaning" → roomAfterTaskSave t (some room) = some room) := by
  constructor
  · intro hr; simp [roomAfterTaskSave, hstat, htype, hr]
  · intro hr; simp [roomAfterTaskSave, hstat, htype, hr]

/-- Witness for C4: the P5 stale no-op instance, a completed cleaning
task firing against an occupied room leaves the room occupied. -/
theorem cleaning_completion_witness :
    roomAfterTaskSave c4Task (some c4Room) = some c4Room :=
  (cleaning_completion_sets_available_iff_cleaning c4Task c4Room rfl rfl).2 (by decide)

/-- Claim C5: back-to-back stays do not conflict.  If every stored
reservation that is blocking and on the candidate room satisfies I2 and
touches the candidate interval only at an endpoint (its checkout equals
the candidate check-in, or its check-in equals the candidate checkout),
the conflict query finds nothing and reservation creation is not
rejected for overlap: it succeeds. -/
theorem back_to_back_no_conflict (u : UserCtx) (b : CreateBody) (roomId : Nat)
    (checkIn checkOut : Int) (room : Room) (rs : List Reservation) (freshId : Nat)
    (hb1 : b.roomId = some roomId) (hb2 : b.checkInDate = some checkIn)
    (hb3 : b.checkOutDate = some checkOut) (hc : checkIn < checkOut)
    (hocc : occupancyExceeded b.numberOfGuests room.maxOccupancy = false)
    (hbtb : ∀ r ∈ rs, r.roomId = roomId → isBlockingStatus r.status = true →
      r.checkInDate < r.checkOutDate ∧
        (r.checkOutDate = checkIn ∨ r.checkInDate = checkOut)) :
    findConflicting roomId checkIn checkOut rs = none ∧
    ∃ res rm, createReservation u b (some room) rs freshId = .created res rm := by
  have hnone : findConflicting roomId checkIn checkOut rs = none := by
    apply List.find?_eq_none.mpr
    intro r hr
    simp only [conflictPred, Bool.and_eq_true, beq_iff_eq]
    rintro ⟨⟨h1, h2⟩, h3⟩
    obtain ⟨hi2, hbt⟩ := hbtb r hr h1 h2
    simp only [overlapClause, Bool.or_eq_true, Bool.and_eq_true,
      decide_eq_true_eq] at h3
    omega
  refine ⟨hnone, ?_⟩
  simp only [createReservation, hb1, hb2, hb3]
  rw [if_neg (by omega)]
  simp only [hocc, hnone, Bool.false_eq_true, if_false, Option.isSome_none]
  exact ⟨_, _, rfl⟩

/-- Witness for C5: the P2 instance, an existing reservation checking
out 2024-03-10 and a candidate checking in 2024-03-10 on the same room;
the candidate is created. -/
theorem back_to_back_no_conflict_witness :
    findConflicting 2 1710028800000 1710288000000 [c5Res] = none ∧
    ∃ res rm,
      createReservation ⟨"receptionist", 9⟩ c5Body (some c5Room) [c5Res] 2 =
        .created res rm :=
  back_to_back_no_conflict ⟨"receptionist", 9⟩ c5Body 2
    1710028800000 1710288000000 c5Room [c5Res] 2
    rfl rfl rfl (by decide) (by decide)
    (by intro r hr h1 h2
        simp only [List.mem_singleton] at hr
        subst hr
        exact ⟨by decide, Or.inl (by decide)⟩)

/-- Claim C6: check-out of a reservation whose current status is not
checked-in fails with the invalid-transition message and returns the
reservation and the room unchanged. -/
theorem checkOut_requires_checkedIn (r : Reservation) (room : Room)
    (hr : r.status ≠ "checked-in") :
    checkOut (some r) room =
      ⟨some "Only checked-in reservations can be checked out", some r, room⟩ := by
  simp [checkOut, hr]

/-- Witness for C6: the P7 instance, check-out of a still-confirmed
reservation fails and touches nothing. -/
theorem checkOut_requires_checkedIn_witness :
    checkOut (some c6Res) c6Room =
      ⟨some "Only checked-in reservations can be checked out", some c6Res, c6Room⟩ :=
  checkOut_requires_checkedIn c6Res c6Room (by decide)

/-- Counterexample to claim C7 as stated: an unprivileged caller (role
guest, neither manager nor admin) updates the priority of a maintenance
request without setting any status; the call succeeds and the stored
priority changes from medium to high instead of failing with
Unauthorized and leaving the request unchanged. -/
theorem unprivileged_priority_update_succeeds_counterexample :
    isPrivileged "guest" = false ∧
    updateRequest ⟨"guest", 9⟩ ⟨none, none, some "high", none, none, none⟩
        c7Req (some c7Room) 0 =
      ⟨none, { c7Req with priority := "high" }, some c7Room⟩ :=
  ⟨rfl, by decide⟩

/-- Claim C7 as amended: for an unprivileged caller the authorization
gate fires exactly when the body status is one of assigned,
in-progress, resolved, cancelled; then the call fails with the
admin/manager message and the request and room are unchanged.  Every
other update by an unprivileged caller (priority, assignedTo, costs,
notes, or a status outside that list) is applied without error. -/
theorem status_gate_only_for_restricted_statuses (u : UserCtx) (b : MaintBody)
    (req : MaintReq) (roomLookup : Option Room) (now : Int)
    (hpriv : isPrivileged u.role = false) :
    (statusGateFires b = true →
      updateRequest u b req roomLookup now =
        ⟨some "Only admin/manager can update status", req, roomLookup⟩) ∧
    (statusGateFires b = false →
      (updateRequest u b req roomLookup now).error = none) := by
  constructor
  · intro hg; simp [updateRequest, hg, hpriv]
  · intro hg
    simp only [updateRequest, hg, hpriv, Bool.false_and, Bool.false_eq_true, if_false]
    split <;> rfl

/-- Witness for the amended C7: a guest requesting status resolved is
rejected with the request and room unchanged. -/
theorem status_gate_witness :
    (statusGateFires ⟨some "resolved", none, none, none, none, none⟩ = true →
      updateRequest ⟨"guest", 9⟩ ⟨some "resolved", none, none, none, none, none⟩
          c7Req (some c7Room) 0 =
        ⟨some "Only admin/manager can update status", c7Req, some c7Room⟩) ∧
    (statusGateFires ⟨some "resolved", none, none, none, none, none⟩ = false →
      (updateRequest ⟨"guest", 9⟩ ⟨some "resolved", none, none, none, none, none⟩
          c7Req (some c7Room) 0).error = none) :=
  status_gate_only_for_restricted_statuses ⟨"guest", 9⟩
    ⟨some "resolved", none, none, none, none, none⟩ c7Req (some c7Room) 0 rfl

/-- Claim C8: creating a maintenance request with body priority urgent
sets the room status to maintenance immediately at creation, for any
prior room status and before any assignment; any other body priority
leaves the room unchanged. -/
theorem urgent_priority_sets_room_maintenance (u : UserCtx) (b : CreateMaintBody)
    (room : Room) (freshId : Nat) :
    (b.priority = some "urgent" →
      ∃ req, createRequest u b (some room) freshId =
        .created req { room with status := "maintenance" }) ∧
    (b.priority ≠ some "urgent" →
      ∃ req, createRequest u b (some room) freshId = .created req room) := by
  constructor
  · intro hp
    refine ⟨newMaintReq u b room freshId, ?_⟩
    simp only [createRequest]
    rw [if_pos (by simp [hp])]
  · intro hp
    refine ⟨newMaintReq u b room freshId, ?_⟩
    simp only [createRequest]
    rw [if_neg (by simp [hp])]

/-- Witness for C8: an urgent request against an occupied room moves the
room to maintenance. -/
theorem urgent_priority_witness :
    ∃ req, createRequest ⟨"guest", 9⟩ c8Body (some c8Room) 3 =
      .created req { c8Room with status := "maintenance" } :=
  (urgent_priority_sets_room_maintenance ⟨"guest", 9⟩ c8Body c8Room 3).1 rfl

/-- Claim C9: when the caller role is guest, the body guestId field is
ignored: two creation requests differing only in the body guestId run
identically, and any reservation created for a guest caller carries the
caller own user id. -/
theorem guest_creation_ignores_body_guestId (u : UserCtx) (b : CreateBody)
    (roomLookup : Option Room) (rs : List Reservation) (freshId : Nat)
    (g1 g2 : Option Nat) (hrole : u.role = "guest") :
    createReservation u { b with guestId := g1 } roomLookup rs freshId =
      createReservation u { b with guestId := g2 } roomLookup rs freshId ∧
    ∀ res rm, createReservation u b roomLookup rs freshId = .created res rm →
      res.guestId = u.userId := by
  constructor
  · simp [createReservation, resolvedGuestId, hrole]
  · intro res rm h
    obtain ⟨room2, hr, hg, hrest⟩ :=
      createReservation_created_fields u b roomLookup rs freshId res rm h
    rw [hg, resolvedGuestId, hrole]
    simp

/-- Witness for C9: a guest caller with id 7, one body naming guest 3
and one naming nobody, produce identical outcomes owned by guest 7. -/
theorem guest_creation_ignores_body_guestId_witness :
    createReservation ⟨"guest", 7⟩ { c9Body with guestId := some 3 } (some c9Room) [] 1 =
      createReservation ⟨"guest", 7⟩ { c9Body with guestId := none } (some c9Room) [] 1 ∧
    ∀ res rm, createReservation ⟨"guest", 7⟩ c9Body (some c9Room) [] 1 = .created res rm →
      res.guestId = 7 :=
  guest_creation_ignores_body_guestId ⟨"guest", 7⟩ c9Body (some c9Room) [] 1
    (some 3) none rfl

/-- Claim C10: when `numberOfGuests` is absent the occupancy guard never
fires, and creation proceeds to success whenever the other guards pass,
yielding a reservation that stores no `numberOfGuests` value. -/
theorem absent_numberOfGuests_skips_occupancy (u : UserCtx) (b : CreateBody)
    (roomId : Nat) (checkIn checkOut : Int) (room : Room)
    (rs : List Reservation) (freshId : Nat)
    (hb1 : b.roomId = some roomId) (hb2 : b.checkInDate = some checkIn)
    (hb3 : b.checkOutDate = some checkOut) (hc : checkIn < checkOut)
    (hnog : b.numberOfGuests = none)
    (hconf : findConflicting roomId checkIn checkOut rs = none) :
    occupancyExceeded b.numberOfGuests room.maxOccupancy = false ∧
    ∃ res rm, createReservation u b (some room) rs freshId = .created res rm ∧
      res.numberOfGuests = none := by
  have hocc : occupancyExceeded b.numberOfGuests room.maxOccupancy = false := by
    rw [hnog]; rfl
  refine ⟨hocc, ?_⟩
  simp only [createReservation, hb1, hb2, hb3]
  rw [if_neg (by omega)]
  simp only [hocc, hconf, Bool.false_eq_true, if_false, Option.isSome_none]
  exact ⟨_, _, rfl, by simp [hnog]⟩

/-- Witness for C10: a body with no guest count books an empty room. -/
theorem absent_numberOfGuests_witness :
    occupancyExceeded c10Body.numberOfGuests c10Room.maxOccupancy = false ∧
    ∃ res rm, createReservation ⟨"guest", 7⟩ c10Body (some c10Room) [] 1 =
        .created res rm ∧ res.numberOfGuests = none :=
  absent_numberOfGuests_skips_occupancy ⟨"guest", 7⟩ c10Body 2
    1710028800000 1710288000000 c10Room [] 1 rfl rfl rfl (by decide) rfl rfl

end Backend
